import Mathlib

/-
Shallow embedding of the rres_rs container decoder (src/src/lib.rs and the
identical modularised copies in src/src/chunks.rs, errors.rs, types.rs,
ext.rs).  Machine integers are modelled as `Nat` with explicit wrapping
(`% 4294967296`, that is 2^32) exactly where Rust release-mode u32
arithmetic can wrap.  The sequential `BufReader`/`Cursor` byte stream is
modelled as the list of bytes still ahead of the read position; multi-byte
fields are combined little-endian (the source reads `NativeEndian` and the
reference platform is little-endian).  Fallible reads return `Option`; a
Rust panic (failed `unwrap`, out-of-bounds `Vec` index) is the `abort`
outcome, distinct from every defined error value.
-/

namespace Rres

/-- Error enum of the source (`RresError` in src/src/errors.rs). -/
inductive RresError where
  | NullResource
  | HeaderRead
  | ChunkNotFound
  | HeaderVerificationFailed
  | InvalidCentralDir
  | Crc32VerificationFailed
  deriving DecidableEq

/-- Observable failure of an operation: a defined `RresError`, an I/O
end-of-stream error propagated with the try operator (`eof`), or a Rust
panic (`abort`), which is not a defined error value at all. -/
inductive DecodeErr where
  | rres : RresError → DecodeErr
  | eof : DecodeErr
  | abort : DecodeErr
  deriving DecidableEq

/-- Resource type classification (`enum ResourceDataType`). -/
inductive ResourceDataType where
  | Null
  | Raw
  | Text
  | Image
  | Wave
  | Vertex
  | FontGlyphs
  | Link
  | Directory
  deriving DecidableEq

/-- Classification of a 4-byte type tag (`impl From<&[u8; 4]> for
ResourceDataType`); every unrecognized tag falls through to `Null`. -/
def resourceDataTypeFrom (t : List Nat) : ResourceDataType :=
  if t = [78, 85, 76, 76] then ResourceDataType.Null
  else if t = [82, 65, 87, 68] then ResourceDataType.Raw
  else if t = [84, 69, 88, 84] then ResourceDataType.Text
  else if t = [73, 77, 71, 69] then ResourceDataType.Image
  else if t = [87, 65, 86, 69] then ResourceDataType.Wave
  else if t = [86, 82, 84, 88] then ResourceDataType.Vertex
  else if t = [70, 78, 84, 71] then ResourceDataType.FontGlyphs
  else if t = [76, 73, 78, 75] then ResourceDataType.Link
  else if t = [67, 68, 73, 82] then ResourceDataType.Directory
  else ResourceDataType.Null

/-- The nine recognized 4-byte type tags (NULL, RAWD, TEXT, IMGE, WAVE,
VRTX, FNTG, LINK, CDIR as ASCII byte values). -/
def recognizedTags : List (List Nat) :=
  [[78, 85, 76, 76], [82, 65, 87, 68], [84, 69, 88, 84], [73, 77, 71, 69],
   [87, 65, 86, 69], [86, 82, 84, 88], [70, 78, 84, 71], [76, 73, 78, 75],
   [67, 68, 73, 82]]

/-- `struct FileHeader`. -/
structure FileHeader where
  file_id : List Nat
  file_version : Nat
  chunk_count : Nat
  cd_offset : Nat
  reserved : Nat
  deriving DecidableEq

/-- `FileHeader::verify`: magic "rres" and version 100. -/
def FileHeader.verify (h : FileHeader) : Bool :=
  h.file_id == [114, 114, 101, 115] && h.file_version == 100

/-- `struct ResourceChunkInfo` (the 32-byte chunk descriptor). -/
structure ResourceChunkInfo where
  chunk_type : List Nat
  chunk_id : Nat
  compression_type : Nat
  cipher_type : Nat
  flags : Nat
  packed_size : Nat
  base_size : Nat
  next_offset : Nat
  reserved : Nat
  crc32 : Nat
  deriving DecidableEq

/-- `CompressionType::None as u8`. -/
def compressionNone : Nat := 0

/-- `EncryptionType::None as u8`. -/
def encryptionNone : Nat := 0

/-- `ResourceChunkInfo::is_compressed_or_encrypted`. -/
def ResourceChunkInfo.is_compressed_or_encrypted (i : ResourceChunkInfo) : Bool :=
  i.compression_type != compressionNone || i.cipher_type != encryptionNone

/-- `ResourceChunkInfo::is_chunk_type`. -/
def ResourceChunkInfo.is_chunk_type (i : ResourceChunkInfo) (t : ResourceDataType) : Bool :=
  resourceDataTypeFrom i.chunk_type == t

/-- `struct ResourceChunkData`. -/
structure ResourceChunkData where
  prop_count : Nat
  props : List Nat
  raw_data : List Nat
  deriving DecidableEq

/-- `struct ResourceChunk`. -/
structure ResourceChunk where
  info : ResourceChunkInfo
  data : ResourceChunkData
  deriving DecidableEq

/-- `struct DirEntry`. -/
structure DirEntry where
  resource_id : Nat
  global_offset : Nat
  reserved : Nat
  file_name_size : Nat
  file_name : List Nat
  deriving DecidableEq

/-- `struct CentralDir`. -/
structure CentralDir where
  entry_count : Nat
  entries : List DirEntry
  deriving DecidableEq

/-- Read one byte from the stream (`read_u8`). -/
def readU8R : List Nat → Option (Nat × List Nat)
  | [] => none
  | b :: r => some (b, r)

/-- Read a u16, little-endian (`read_u16::<NativeEndian>`). -/
def readU16R (s : List Nat) : Option (Nat × List Nat) :=
  match readU8R s with
  | none => none
  | some (a, s1) =>
    match readU8R s1 with
    | none => none
    | some (b, s2) => some (a + 256 * b, s2)

/-- Read a u32, little-endian (`read_u32::<NativeEndian>`). -/
def readU32R (s : List Nat) : Option (Nat × List Nat) :=
  match readU8R s with
  | none => none
  | some (a, s1) =>
    match readU8R s1 with
    | none => none
    | some (b, s2) =>
      match readU8R s2 with
      | none => none
      | some (c, s3) =>
        match readU8R s3 with
        | none => none
        | some (d, s4) => some (a + 256 * b + 65536 * c + 16777216 * d, s4)

/-- `read_exact` into a buffer of `len` bytes: succeeds exactly when the
stream still holds at least `len` bytes (an empty read always succeeds). -/
def readExactR (s : List Nat) (len : Nat) : Option (List Nat × List Nat) :=
  if len ≤ s.length then some (s.take len, s.drop len) else none

/-- The 256-entry CRC table of `compute_crc32`, transcribed verbatim. -/
def crcTable : List Nat :=
  [0x00000000, 0x77073096, 0xEE0E612C, 0x990951BA, 0x076DC419, 0x706AF48F, 0xE963A535,
   0x9E6495A3, 0x0EDB8832, 0x79DCB8A4, 0xE0D5E91E, 0x97D2D988, 0x09B64C2B, 0x7EB17CBD,
   0xE7B82D07, 0x90BF1D91, 0x1DB71064, 0x6AB020F2, 0xF3B97148, 0x84BE41DE, 0x1ADAD47D,
   0x6DDDE4EB, 0xF4D4B551, 0x83D385C7, 0x136C9856, 0x646BA8C0, 0xFD62F97A, 0x8A65C9EC,
   0x14015C4F, 0x63066CD9, 0xFA0F3D63, 0x8D080DF5, 0x3B6E20C8, 0x4C69105E, 0xD56041E4,
   0xA2677172, 0x3C03E4D1, 0x4B04D447, 0xD20D85FD, 0xA50AB56B, 0x35B5A8FA, 0x42B2986C,
   0xDBBBC9D6, 0xACBCF940, 0x32D86CE3, 0x45DF5C75, 0xDCD60DCF, 0xABD13D59, 0x26D930AC,
   0x51DE003A, 0xC8D75180, 0xBFD06116, 0x21B4F4B5, 0x56B3C423, 0xCFBA9599, 0xB8BDA50F,
   0x2802B89E, 0x5F058808, 0xC60CD9B2, 0xB10BE924, 0x2F6F7C87, 0x58684C11, 0xC1611DAB,
   0xB6662D3D, 0x76DC4190, 0x01DB7106, 0x98D220BC, 0xEFD5102A, 0x71B18589, 0x06B6B51F,
   0x9FBFE4A5, 0xE8B8D433, 0x7807C9A2, 0x0F00F934, 0x9609A88E, 0xE10E9818, 0x7F6A0DBB,
   0x086D3D2D, 0x91646C97, 0xE6635C01, 0x6B6B51F4, 0x1C6C6162, 0x856530D8, 0xF262004E,
   0x6C0695ED, 0x1B01A57B, 0x8208F4C1, 0xF50FC457, 0x65B0D9C6, 0x12B7E950, 0x8BBEB8EA,
   0xFCB9887C, 0x62DD1DDF, 0x15DA2D49, 0x8CD37CF3, 0xFBD44C65, 0x4DB26158, 0x3AB551CE,
   0xA3BC0074, 0xD4BB30E2, 0x4ADFA541, 0x3DD895D7, 0xA4D1C46D, 0xD3D6F4FB, 0x4369E96A,
   0x346ED9FC, 0xAD678846, 0xDA60B8D0, 0x44042D73, 0x33031DE5, 0xAA0A4C5F, 0xDD0D7CC9,
   0x5005713C, 0x270241AA, 0xBE0B1010, 0xC90C2086, 0x5768B525, 0x206F85B3, 0xB966D409,
   0xCE61E49F, 0x5EDEF90E, 0x29D9C998, 0xB0D09822, 0xC7D7A8B4, 0x59B33D17, 0x2EB40D81,
   0xB7BD5C3B, 0xC0BA6CAD, 0xEDB88320, 0x9ABFB3B6, 0x03B6E20C, 0x74B1D29A, 0xEAD54739,
   0x9DD277AF, 0x04DB2615, 0x73DC1683, 0xE3630B12, 0x94643B84, 0x0D6D6A3E, 0x7A6A5AA8,
   0xE40ECF0B, 0x9309FF9D, 0x0A00AE27, 0x7D079EB1, 0xF00F9344, 0x8708A3D2, 0x1E01F268,
   0x6906C2FE, 0xF762575D, 0x806567CB, 0x196C3671, 0x6E6B06E7, 0xFED41B76, 0x89D32BE0,
   0x10DA7A5A, 0x67DD4ACC, 0xF9B9DF6F, 0x8EBEEFF9, 0x17B7BE43, 0x60B08ED5, 0xD6D6A3E8,
   0xA1D1937E, 0x38D8C2C4, 0x4FDFF252, 0xD1BB67F1, 0xA6BC5767, 0x3FB506DD, 0x48B2364B,
   0xD80D2BDA, 0xAF0A1B4C, 0x36034AF6, 0x41047A60, 0xDF60EFC3, 0xA867DF55, 0x316E8EEF,
   0x4669BE79, 0xCB61B38C, 0xBC66831A, 0x256FD2A0, 0x5268E236, 0xCC0C7795, 0xBB0B4703,
   0x220216B9, 0x5505262F, 0xC5BA3BBE, 0xB2BD0B28, 0x2BB45A92, 0x5CB36A04, 0xC2D7FFA7,
   0xB5D0CF31, 0x2CD99E8B, 0x5BDEAE1D, 0x9B64C2B0, 0xEC63F226, 0x756AA39C, 0x026D930A,
   0x9C0906A9, 0xEB0E363F, 0x72076785, 0x05005713, 0x95BF4A82, 0xE2B87A14, 0x7BB12BAE,
   0x0CB61B38, 0x92D28E9B, 0xE5D5BE0D, 0x7CDCEFB7, 0x0BDBDF21, 0x86D3D2D4, 0xF1D4E242,
   0x68DDB3F8, 0x1FDA836E, 0x81BE16CD, 0xF6B9265B, 0x6FB077E1, 0x18B74777, 0x88085AE6,
   0xFF0F6A70, 0x66063BCA, 0x11010B5C, 0x8F659EFF, 0xF862AE69, 0x616BFFD3, 0x166CCF45,
   0xA00AE278, 0xD70DD2EE, 0x4E048354, 0x3903B3C2, 0xA7672661, 0xD06016F7, 0x4969474D,
   0x3E6E77DB, 0xAED16A4A, 0xD9D65ADC, 0x40DF0B66, 0x37D83BF0, 0xA9BCAE53, 0xDEBB9EC5,
   0x47B2CF7F, 0x30B5FFE9, 0xBDBDF21C, 0xCABAC28A, 0x53B39330, 0x24B4A3A6, 0xBAD03605,
   0xCDD70693, 0x54DE5729, 0x23D967BF, 0xB3667A2E, 0xC4614AB8, 0x5D681B02, 0x2A6F2B94,
   0xB40BBE37, 0xC30C8EA1, 0x5A05DF1B, 0x2D02EF8D]

/-- One byte step of `compute_crc32`:
`crc = (crc >> 8) ^ CRC_TABLE[(byte ^ (crc as u8)) as usize]`. -/
def crc32_step (crc b : Nat) : Nat :=
  (crc / 256) ^^^ crcTable.getD ((b % 256) ^^^ (crc % 256)) 0

/-- `compute_crc32`: running value starts at all-ones, one table step per
byte, final bitwise complement. -/
def compute_crc32 (data : List Nat) : Nat :=
  (data.foldl crc32_step 4294967295) ^^^ 4294967295

/-- Wrapping u32 subtraction, Rust release-mode semantics. -/
def wsub32 (a b : Nat) : Nat := (a + (4294967296 - b % 4294967296)) % 4294967296

/-- Wrapping u32 multiplication, Rust release-mode semantics. -/
def wmul32 (a b : Nat) : Nat := (a * b) % 4294967296

/-- The property-reading loop of `from_info_and_data`: `prop_count`
consecutive u32 reads, each with `unwrap`. -/
def readPropsR : Nat → List Nat → Option (List Nat × List Nat)
  | 0, s => some ([], s)
  | n + 1, s =>
    match readU32R s with
    | none => none
    | some (v, s1) =>
      match readPropsR n s1 with
      | none => none
      | some (vs, s2) => some (v :: vs, s2)

/-- The chunk payload decoder, `ResourceChunkData::from_info_and_data`.
Order of checks follows the source: `Null` classification first, then the
stored-versus-computed CRC comparison, then the branch on
`is_compressed_or_encrypted`.  The u32 arithmetic deriving the raw-tail
length wraps (release semantics); the `unwrap`ed property reads abort on a
short buffer, while the `read_exact` calls propagate an I/O error. -/
def ResourceChunkData.from_info_and_data (info : ResourceChunkInfo) (data : List Nat) :
    Except DecodeErr ResourceChunkData :=
  let crc := compute_crc32 data
  if resourceDataTypeFrom info.chunk_type = ResourceDataType.Null then
    Except.error (DecodeErr.rres RresError.NullResource)
  else if crc ≠ info.crc32 then
    Except.error (DecodeErr.rres RresError.Crc32VerificationFailed)
  else if !info.is_compressed_or_encrypted then
    match readU32R data with
    | none => Except.error DecodeErr.abort
    | some (prop_count, s1) =>
      match readPropsR prop_count s1 with
      | none => Except.error DecodeErr.abort
      | some (props, s2) =>
        let raw_size := wsub32 (wsub32 info.base_size 4) (wmul32 prop_count 4)
        match readExactR s2 raw_size with
        | none => Except.error DecodeErr.eof
        | some (raw_data, _) =>
          Except.ok { prop_count := prop_count, props := props, raw_data := raw_data }
  else
    match readExactR data info.packed_size with
    | none => Except.error DecodeErr.eof
    | some (raw_data, _) =>
      Except.ok { prop_count := 0, props := [], raw_data := raw_data }

/-- `FileHeader::from_buf_reader`: 4 magic bytes, u16 version, u16 chunk
count, u32 central-directory offset, u32 reserved (16 bytes total). -/
def parseHeaderR (s : List Nat) : Option (FileHeader × List Nat) :=
  match readU8R s with
  | none => none
  | some (i0, s1) =>
  match readU8R s1 with
  | none => none
  | some (i1, s2) =>
  match readU8R s2 with
  | none => none
  | some (i2, s3) =>
  match readU8R s3 with
  | none => none
  | some (i3, s4) =>
  match readU16R s4 with
  | none => none
  | some (ver, s5) =>
  match readU16R s5 with
  | none => none
  | some (cnt, s6) =>
  match readU32R s6 with
  | none => none
  | some (cdo, s7) =>
  match readU32R s7 with
  | none => none
  | some (res, s8) =>
    some ({ file_id := [i0, i1, i2, i3], file_version := ver, chunk_count := cnt,
            cd_offset := cdo, reserved := res }, s8)

/-- `ResourceChunkInfo::from_buf_reader` (32 bytes total). -/
def parseChunkInfoR (s : List Nat) : Option (ResourceChunkInfo × List Nat) :=
  match readU8R s with
  | none => none
  | some (t0, s1) =>
  match readU8R s1 with
  | none => none
  | some (t1, s2) =>
  match readU8R s2 with
  | none => none
  | some (t2, s3) =>
  match readU8R s3 with
  | none => none
  | some (t3, s4) =>
  match readU32R s4 with
  | none => none
  | some (cid, s5) =>
  match readU8R s5 with
  | none => none
  | some (comp, s6) =>
  match readU8R s6 with
  | none => none
  | some (ciph, s7) =>
  match readU16R s7 with
  | none => none
  | some (fl, s8) =>
  match readU32R s8 with
  | none => none
  | some (ps, s9) =>
  match readU32R s9 with
  | none => none
  | some (bs, s10) =>
  match readU32R s10 with
  | none => none
  | some (no, s11) =>
  match readU32R s11 with
  | none => none
  | some (rsv, s12) =>
  match readU32R s12 with
  | none => none
  | some (crc, s13) =>
    some ({ chunk_type := [t0, t1, t2, t3], chunk_id := cid, compression_type := comp,
            cipher_type := ciph, flags := fl, packed_size := ps, base_size := bs,
            next_offset := no, reserved := rsv, crc32 := crc }, s13)

/-- The chunk-scanning loop of `RresFile::load_resource_chunk`: one
descriptor read per iteration, decode on an id match, otherwise seek
forward by `packed_size`; `ChunkNotFound` after the last iteration. -/
def scanChunks (rres_id : Nat) : Nat → List Nat → Except DecodeErr ResourceChunk
  | 0, _ => Except.error (DecodeErr.rres RresError.ChunkNotFound)
  | n + 1, s =>
    match parseChunkInfoR s with
    | none => Except.error DecodeErr.eof
    | some (info, s1) =>
      if info.chunk_id = rres_id then
        match readExactR s1 info.packed_size with
        | none => Except.error DecodeErr.abort
        | some (data, _) =>
          match ResourceChunkData.from_info_and_data info data with
          | Except.error e => Except.error e
          | Except.ok d => Except.ok { info := info, data := d }
      else
        scanChunks rres_id n (s1.drop info.packed_size)

/-- `RresFile::load_resource_chunk` over the file's bytes. -/
def load_resource_chunk (s : List Nat) (rres_id : Nat) : Except DecodeErr ResourceChunk :=
  match parseHeaderR s with
  | none => Except.error DecodeErr.eof
  | some (header, s1) =>
    if !header.verify then Except.error (DecodeErr.rres RresError.HeaderVerificationFailed)
    else scanChunks rres_id header.chunk_count s1

/-- The entry-reading loop of `RresFile::load_central_dir`: per entry a u32
resource id, a u32 global offset, a 4-byte skip, a u32 name length and
that many name bytes, strictly in order. -/
def parseDirEntries : Nat → List Nat → Option (List DirEntry)
  | 0, _ => some []
  | n + 1, s =>
    match readU32R s with
    | none => none
    | some (rid, s1) =>
    match readU32R s1 with
    | none => none
    | some (goff, s2) =>
    match readU32R (s2.drop 4) with
    | none => none
    | some (fns, s4) =>
    match readExactR s4 fns with
    | none => none
    | some (name, s5) =>
    match parseDirEntries n s5 with
    | none => none
    | some rest =>
      some ({ resource_id := rid, global_offset := goff, reserved := 0,
              file_name_size := fns, file_name := name } :: rest)

/-- `RresFile::load_central_dir` over the file's bytes.  After the header
the reader seeks forward by `cd_offset`, reads one descriptor, requires the
`Directory` classification, decodes the payload, takes `props[0]` as the
entry count (a panic, `abort`, when the decoded property list is empty) and
parses the entries from the raw tail. -/
def load_central_dir (s : List Nat) : Except DecodeErr CentralDir :=
  match parseHeaderR s with
  | none => Except.error DecodeErr.eof
  | some (header, s1) =>
    if !header.verify then Except.error (DecodeErr.rres RresError.HeaderVerificationFailed)
    else
      match parseChunkInfoR (s1.drop header.cd_offset) with
      | none => Except.error DecodeErr.eof
      | some (info, s2) =>
        if !info.is_chunk_type ResourceDataType.Directory then
          Except.error (DecodeErr.rres RresError.InvalidCentralDir)
        else
          match readExactR s2 info.packed_size with
          | none => Except.error DecodeErr.eof
          | some (data, _) =>
            match ResourceChunkData.from_info_and_data info data with
            | Except.error e => Except.error e
            | Except.ok chunk_data =>
              match chunk_data.props with
              | [] => Except.error DecodeErr.abort
              | entry_count :: _ =>
                match parseDirEntries entry_count chunk_data.raw_data with
                | none => Except.error DecodeErr.eof
                | some entries =>
                  Except.ok { entry_count := entry_count, entries := entries }

/-- Logical name of a directory entry: its raw name bytes up to, and
excluding, the first NUL byte (the `Display` impl for `DirEntry`). -/
def DirEntry.entryName (e : DirEntry) : List Nat :=
  e.file_name.takeWhile (fun c => c != 0)

/-- The search loop of `CentralDir::get_resource_id`: `id` starts at 0 and
is overwritten by the first entry whose display name equals `filename`. -/
def getResourceIdGo (filename : List Nat) : List DirEntry → Nat
  | [] => 0
  | e :: rest =>
    if e.entryName = filename then e.resource_id else getResourceIdGo filename rest

/-- `CentralDir::get_resource_id`. -/
def CentralDir.get_resource_id (dir : CentralDir) (filename : List Nat) : Nat :=
  getResourceIdGo filename dir.entries

/-
Specification-side definitions.  These are not translated from the source:
they restate what the spec says (the reflected ISO-HDLC CRC computed bit by
bit, and the resource-locator / directory-resolver algorithms described in
natural language) so that the source-derived definitions above can be
proved to refine them.
-/

/-- The reflected ISO-HDLC generator polynomial. -/
def crcPoly : Nat := 0xEDB88320

/-- One bit round of the reflected CRC: shift right, conditionally xor the
polynomial. -/
def crcRound (c : Nat) : Nat :=
  if c % 2 = 1 then (c / 2) ^^^ crcPoly else c / 2

/-- Eight bit rounds: one full byte of the reflected CRC. -/
def crcRound8 (c : Nat) : Nat :=
  crcRound (crcRound (crcRound (crcRound (crcRound (crcRound (crcRound (crcRound c)))))))

/-- Inverse of one bit round on 32-bit values. -/
def crcRoundInv (d : Nat) : Nat :=
  if d.testBit 31 then 2 * (d ^^^ crcPoly) + 1 else 2 * d

/-- Eight inverse bit rounds. -/
def crcRoundInv8 (d : Nat) : Nat :=
  crcRoundInv (crcRoundInv (crcRoundInv (crcRoundInv
    (crcRoundInv (crcRoundInv (crcRoundInv (crcRoundInv d)))))))

/-- The reflected ISO-HDLC CRC computed bit by bit, with all-ones initial
value and final complement: the mathematical description in the spec. -/
def crc32_bitSpec (data : List Nat) : Nat :=
  (data.foldl (fun c b => crcRound8 (c ^^^ b % 256)) 4294967295) ^^^ 4294967295

/-- Little-endian serialization of a u16. -/
def u16le (v : Nat) : List Nat := [v % 256, v / 256]

/-- Little-endian serialization of a u32. -/
def u32le (v : Nat) : List Nat :=
  [v % 256, v / 256 % 256, v / 65536 % 256, v / 16777216]

/-- On-disk bytes of a file header (16 bytes). -/
def serializeHeader (h : FileHeader) : List Nat :=
  h.file_id ++ u16le h.file_version ++ u16le h.chunk_count ++
    u32le h.cd_offset ++ u32le h.reserved

/-- On-disk bytes of a chunk descriptor (32 bytes). -/
def serializeInfo (i : ResourceChunkInfo) : List Nat :=
  i.chunk_type ++ u32le i.chunk_id ++ [i.compression_type, i.cipher_type] ++
    u16le i.flags ++ u32le i.packed_size ++ u32le i.base_size ++
    u32le i.next_offset ++ u32le i.reserved ++ u32le i.crc32

/-- A chunk as a descriptor plus its packed payload bytes. -/
structure ChunkModel where
  info : ResourceChunkInfo
  payload : List Nat
  deriving DecidableEq

/-- A container file as a header plus its chunk sequence. -/
structure FileModel where
  header : FileHeader
  chunks : List ChunkModel
  deriving DecidableEq

/-- On-disk bytes of one chunk: descriptor then payload. -/
def serializeChunk (c : ChunkModel) : List Nat := serializeInfo c.info ++ c.payload

/-- On-disk bytes of a whole container file. -/
def serializeFile (f : FileModel) : List Nat :=
  serializeHeader f.header ++ (f.chunks.map serializeChunk).flatten

/-- Field ranges that make a header serializable back to itself. -/
abbrev wfHeader (h : FileHeader) : Prop :=
  h.file_id.length = 4 ∧ (∀ b ∈ h.file_id, b < 256) ∧ h.file_version < 65536 ∧
    h.chunk_count < 65536 ∧ h.cd_offset < 4294967296 ∧ h.reserved < 4294967296

/-- Field ranges that make a descriptor serializable back to itself. -/
abbrev wfInfo (i : ResourceChunkInfo) : Prop :=
  i.chunk_type.length = 4 ∧ (∀ b ∈ i.chunk_type, b < 256) ∧
    i.chunk_id < 4294967296 ∧ i.compression_type < 256 ∧ i.cipher_type < 256 ∧
    i.flags < 65536 ∧ i.packed_size < 4294967296 ∧ i.base_size < 4294967296 ∧
    i.next_offset < 4294967296 ∧ i.reserved < 4294967296 ∧ i.crc32 < 4294967296

/-- A well-formed chunk: in-range descriptor, byte-valued payload of
exactly `packed_size` bytes. -/
abbrev wfChunk (c : ChunkModel) : Prop :=
  wfInfo c.info ∧ (∀ b ∈ c.payload, b < 256) ∧ c.payload.length = c.info.packed_size

/-- A well-formed container: in-range header whose chunk count equals the
number of chunks, all of them well formed. -/
abbrev wfFile (f : FileModel) : Prop :=
  wfHeader f.header ∧ f.header.chunk_count = f.chunks.length ∧ ∀ c ∈ f.chunks, wfChunk c

/-- Decode of the first chunk record whose id matches, `ChunkNotFound`
when none does. -/
def findChunkSpec (chunks : List ChunkModel) (rres_id : Nat) : Except DecodeErr ResourceChunk :=
  match chunks.find? (fun c => c.info.chunk_id == rres_id) with
  | none => Except.error (DecodeErr.rres RresError.ChunkNotFound)
  | some c =>
    match ResourceChunkData.from_info_and_data c.info c.payload with
    | Except.error e => Except.error e
    | Except.ok d => Except.ok { info := c.info, data := d }

/-- Specification of the resource locator, written from the spec: verify
the header (else `HeaderVerificationFailed`), take the first of the file's
chunk records whose id matches, decode its payload and return the chunk;
`ChunkNotFound` when no record matches. -/
def fetch_by_id_spec (f : FileModel) (rres_id : Nat) : Except DecodeErr ResourceChunk :=
  if !f.header.verify then Except.error (DecodeErr.rres RresError.HeaderVerificationFailed)
  else findChunkSpec f.chunks rres_id

/-- Little-endian value of a byte list. -/
def leVal (l : List Nat) : Nat := l.foldr (fun b acc => b + 256 * acc) 0

/-- Specification of the directory-entry tail, written from the spec: the
raw tail is consumed strictly in order, each entry being a u32 resource
id, a u32 global offset, 4 reserved bytes that are skipped, a u32 name
length and that many raw name bytes. -/
def dirEntriesSpec : Nat → List Nat → Option (List DirEntry)
  | 0, _ => some []
  | n + 1, t =>
    if 16 ≤ t.length then
      let nlen := leVal ((t.drop 12).take 4)
      if 16 + nlen ≤ t.length then
        match dirEntriesSpec n (t.drop (16 + nlen)) with
        | none => none
        | some rest =>
          some ({ resource_id := leVal (t.take 4), global_offset := leVal ((t.drop 4).take 4),
                  reserved := 0, file_name_size := nlen,
                  file_name := (t.drop 16).take nlen } :: rest)
      else none
    else none

/-- Specification of the directory resolver, written from the spec: verify
the header, read one descriptor at offset `cd_offset` measured from the
byte just after the 16-byte header, require the `Directory`
classification (else `InvalidCentralDirectory`), decode the chunk payload
found in the following `packed_size` bytes, take the first decoded
property as the entry count and parse the raw tail as that many entries.
(When the decoded property list is empty the reference implementation
panics; `abort` mirrors that, see the C10 analysis.) -/
def load_directory_spec (s : List Nat) : Except DecodeErr CentralDir :=
  match parseHeaderR s with
  | none => Except.error DecodeErr.eof
  | some (header, _) =>
    if !header.verify then Except.error (DecodeErr.rres RresError.HeaderVerificationFailed)
    else
      match parseChunkInfoR (s.drop (16 + header.cd_offset)) with
      | none => Except.error DecodeErr.eof
      | some (info, _) =>
        if !(resourceDataTypeFrom info.chunk_type == ResourceDataType.Directory) then
          Except.error (DecodeErr.rres RresError.InvalidCentralDir)
        else
          match readExactR (s.drop (16 + header.cd_offset + 32)) info.packed_size with
          | none => Except.error DecodeErr.eof
          | some (data, _) =>
            match ResourceChunkData.from_info_and_data info data with
            | Except.error e => Except.error e
            | Except.ok chunk_data =>
              match chunk_data.props.head? with
              | none => Except.error DecodeErr.abort
              | some entry_count =>
                match dirEntriesSpec entry_count chunk_data.raw_data with
                | none => Except.error DecodeErr.eof
                | some entries => Except.ok { entry_count := entry_count, entries := entries }

/-
Concrete instances used by the witnesses and counterexamples below.
-/

/-- Uncompressed RAWD descriptor whose `base_size` (0) is smaller than the
4-byte property-table overhead, with a checksum matching the 4-byte
all-zero payload. -/
def c1Info : ResourceChunkInfo :=
  { chunk_type := [82, 65, 87, 68], chunk_id := 1, compression_type := 0, cipher_type := 0,
    flags := 0, packed_size := 4, base_size := 0, next_offset := 0, reserved := 0,
    crc32 := compute_crc32 [0, 0, 0, 0] }

/-- Directory whose single entry stores the legitimate resource id 0 under
the one-byte name "a". -/
def c2Dir : CentralDir :=
  { entry_count := 1,
    entries := [{ resource_id := 0, global_offset := 0, reserved := 0,
                  file_name_size := 1, file_name := [97] }] }

/-- Directory with two entries sharing the path prefix "a": "ab" with id 7,
then an entry whose raw name bytes are "a", NUL, "x" — its logical name is
just "a" — with id 9. -/
def c9Dir : CentralDir :=
  { entry_count := 2,
    entries := [{ resource_id := 7, global_offset := 0, reserved := 0,
                  file_name_size := 2, file_name := [97, 98] },
                { resource_id := 9, global_offset := 0, reserved := 0,
                  file_name_size := 3, file_name := [97, 0, 120] }] }

/-- A well-formed one-chunk container: a TEXT chunk with id 7, one payload
byte 42 and a matching stored checksum. -/
def cwChunk : ChunkModel :=
  { info :=
      { chunk_type := [84, 69, 88, 84], chunk_id := 7, compression_type := 0,
        cipher_type := 0, flags := 0, packed_size := 1, base_size := 8, next_offset := 0,
        reserved := 0, crc32 := compute_crc32 [42] },
    payload := [42] }

/-- Header of the one-chunk witness container. -/
def cwHeader : FileHeader :=
  { file_id := [114, 114, 101, 115], file_version := 100, chunk_count := 1, cd_offset := 0,
    reserved := 0 }

/-- The one-chunk witness container. -/
def cwFile : FileModel := { header := cwHeader, chunks := [cwChunk] }

/-- A compressed (RLE) TEXT descriptor whose checksum matches the two-byte
payload 9, 8. -/
def c5Info : ResourceChunkInfo :=
  { chunk_type := [84, 69, 88, 84], chunk_id := 2, compression_type := 1, cipher_type := 0,
    flags := 0, packed_size := 2, base_size := 0, next_offset := 0, reserved := 0,
    crc32 := compute_crc32 [9, 8] }

/-- A descriptor whose 4-byte type tag 1,2,3,4 is not one of the recognized
codes. -/
def c8Info : ResourceChunkInfo :=
  { chunk_type := [1, 2, 3, 4], chunk_id := 3, compression_type := 0, cipher_type := 0,
    flags := 0, packed_size := 0, base_size := 0, next_offset := 0, reserved := 0,
    crc32 := 0 }

/-- Header of the C10 witness file (the chunk count is irrelevant to
`load_central_dir`). -/
def c10Header : FileHeader :=
  { file_id := [114, 114, 101, 115], file_version := 100, chunk_count := 0, cd_offset := 0,
    reserved := 0 }

/-- A Directory-classified descriptor marked RLE-compressed, empty payload,
stored checksum 0 (the checksum of the empty payload). -/
def c10Info : ResourceChunkInfo :=
  { chunk_type := [67, 68, 73, 82], chunk_id := 1, compression_type := 1, cipher_type := 0,
    flags := 0, packed_size := 0, base_size := 0, next_offset := 0, reserved := 0,
    crc32 := 0 }

/-- The C10 witness file bytes: header, then the compressed directory
descriptor at central-directory offset 0, no payload bytes. -/
def c10File : List Nat := serializeHeader c10Header ++ serializeInfo c10Info

/-
Helper lemmas: reader shapes, consumption, serialization round trips.
-/

lemma exists_four_of_length {l : List Nat} (h : l.length = 4) :
    ∃ a b c d, l = [a, b, c, d] := by
  rcases l with _ | ⟨a, _ | ⟨b, _ | ⟨c, _ | ⟨d, _ | ⟨e, t⟩⟩⟩⟩⟩
  · simp at h
  · simp at h
  · simp at h
  · simp at h
  · exact ⟨a, b, c, d, rfl⟩
  · simp only [List.length_cons] at h
    omega

lemma readU8R_cons (a : Nat) (r : List Nat) : readU8R (a :: r) = some (a, r) := rfl

lemma readU16R_cons (a b : Nat) (r : List Nat) :
    readU16R (a :: b :: r) = some (a + 256 * b, r) := rfl

lemma readU32R_cons (a b c d : Nat) (r : List Nat) :
    readU32R (a :: b :: c :: d :: r) =
      some (a + 256 * b + 65536 * c + 16777216 * d, r) := rfl

lemma readU32R_shape {s : List Nat} {v : Nat} {r : List Nat}
    (h : readU32R s = some (v, r)) :
    4 ≤ s.length ∧ r = s.drop 4 ∧ v = leVal (s.take 4) := by
  rcases s with _ | ⟨a, _ | ⟨b, _ | ⟨c, _ | ⟨d, t⟩⟩⟩⟩
  · simp [readU32R, readU8R] at h
  · simp [readU32R, readU8R] at h
  · simp [readU32R, readU8R] at h
  · simp [readU32R, readU8R] at h
  · rw [readU32R_cons] at h
    simp only [Option.some.injEq, Prod.mk.injEq] at h
    obtain ⟨hv, hr⟩ := h
    refine ⟨by simp, by simp [hr.symm], ?_⟩
    rw [← hv]
    simp [leVal]
    omega

lemma readU32R_none {s : List Nat} (h : s.length < 4) : readU32R s = none := by
  rcases s with _ | ⟨a, _ | ⟨b, _ | ⟨c, _ | ⟨d, t⟩⟩⟩⟩
  · rfl
  · rfl
  · rfl
  · rfl
  · exfalso
    simp only [List.length_cons] at h
    omega

lemma readExactR_append (l rest : List Nat) :
    readExactR (l ++ rest) l.length = some (l, rest) := by
  simp [readExactR, List.take_left, List.drop_left]

lemma readExactR_shape {s : List Nat} {len : Nat} {d r : List Nat}
    (h : readExactR s len = some (d, r)) :
    len ≤ s.length ∧ d = s.take len ∧ r = s.drop len := by
  by_cases hl : len ≤ s.length <;> simp [readExactR, hl] at h
  exact ⟨hl, h.1.symm, h.2.symm⟩

lemma readU16R_u16le (v : Nat) (hv : v < 65536) (rest : List Nat) :
    readU16R (u16le v ++ rest) = some (v, rest) := by
  show readU16R (v % 256 :: v / 256 :: rest) = some (v, rest)
  rw [readU16R_cons]
  simp only [Option.some.injEq, Prod.mk.injEq]
  exact ⟨by omega, trivial⟩

lemma readU32R_u32le (v : Nat) (hv : v < 4294967296) (rest : List Nat) :
    readU32R (u32le v ++ rest) = some (v, rest) := by
  show readU32R (v % 256 :: v / 256 % 256 :: v / 65536 % 256 :: v / 16777216 :: rest) =
    some (v, rest)
  rw [readU32R_cons]
  simp only [Option.some.injEq, Prod.mk.injEq]
  exact ⟨by omega, trivial⟩

lemma parseHeaderR_serialize (h : FileHeader) (hw : wfHeader h) (rest : List Nat) :
    parseHeaderR (serializeHeader h ++ rest) = some (h, rest) := by
  obtain ⟨hlen, -, hver, hcnt, hcd, hrsv⟩ := hw
  obtain ⟨a, b, c, d, hid⟩ := exists_four_of_length hlen
  obtain ⟨fid, ver, cnt, cdo, rsv⟩ := h
  simp only at hid hver hcnt hcd hrsv
  subst hid
  simp only [serializeHeader, u16le, u32le, List.cons_append, List.nil_append,
    List.append_assoc]
  simp only [parseHeaderR, readU8R_cons, readU16R_cons, readU32R_cons]
  simp only [Option.some.injEq, Prod.mk.injEq, FileHeader.mk.injEq]
  and_intros <;> first | trivial | omega

lemma parseChunkInfoR_serialize (i : ResourceChunkInfo) (hw : wfInfo i)
    (rest : List Nat) :
    parseChunkInfoR (serializeInfo i ++ rest) = some (i, rest) := by
  obtain ⟨hlen, -, hcid, hcp, hci, hfl, hps, hbs, hno, hrv, hcrc⟩ := hw
  obtain ⟨a, b, c, d, hid⟩ := exists_four_of_length hlen
  obtain ⟨ct, cid, cp, ci, fl, ps, bs, no, rv, crc⟩ := i
  simp only at hid hcid hcp hci hfl hps hbs hno hrv hcrc
  subst hid
  simp only [serializeInfo, u16le, u32le, List.cons_append, List.nil_append,
    List.append_assoc]
  simp only [parseChunkInfoR, readU8R_cons, readU16R_cons, readU32R_cons]
  simp only [Option.some.injEq, Prod.mk.injEq, ResourceChunkInfo.mk.injEq]
  and_intros <;> first | trivial | omega

lemma scanChunks_serialize (rres_id : Nat) (chunks : List ChunkModel) :
    ∀ (rest : List Nat), (∀ c ∈ chunks, wfChunk c) →
      scanChunks rres_id chunks.length ((chunks.map serializeChunk).flatten ++ rest) =
        findChunkSpec chunks rres_id := by
  induction chunks with
  | nil => intro rest _; rfl
  | cons c cs ih =>
    intro rest hwf
    obtain ⟨hwi, hbytes, hlen⟩ := hwf c (by simp)
    have hser : (((c :: cs).map serializeChunk).flatten ++ rest)
        = serializeInfo c.info ++ (c.payload ++ ((cs.map serializeChunk).flatten ++ rest)) := by
      simp [serializeChunk, List.append_assoc]
    rw [hser]
    show scanChunks rres_id (cs.length + 1) _ = _
    rw [scanChunks, parseChunkInfoR_serialize c.info hwi]
    by_cases hid : c.info.chunk_id = rres_id
    · have hfind : (c :: cs).find? (fun x => x.info.chunk_id == rres_id) = some c := by
        simp [List.find?, hid]
      have hread : readExactR (c.payload ++ ((cs.map serializeChunk).flatten ++ rest))
          c.info.packed_size = some (c.payload, (cs.map serializeChunk).flatten ++ rest) := by
        rw [← hlen]
        exact readExactR_append _ _
      simp only [hid, hread, findChunkSpec, hfind]
      simp
    · have hb : (c.info.chunk_id == rres_id) = false := by
        simp [hid]
      have hfind : (c :: cs).find? (fun x => x.info.chunk_id == rres_id) =
          cs.find? (fun x => x.info.chunk_id == rres_id) := by
        simp [List.find?, hb]
      have hdrop : (c.payload ++ ((cs.map serializeChunk).flatten ++ rest)).drop
          c.info.packed_size = (cs.map serializeChunk).flatten ++ rest := by
        rw [← hlen]
        exact List.drop_left _ _
      simp only [if_neg hid, hdrop]
      rw [ih rest (fun x hx => hwf x (by simp [hx]))]
      simp only [findChunkSpec, hfind]

lemma load_resource_chunk_eq_spec (f : FileModel) (hwf : wfFile f) (rres_id : Nat) :
    load_resource_chunk (serializeFile f) rres_id = fetch_by_id_spec f rres_id := by
  obtain ⟨hwh, hcnt, hwcs⟩ := hwf
  unfold load_resource_chunk serializeFile fetch_by_id_spec
  rw [parseHeaderR_serialize f.header hwh ((f.chunks.map serializeChunk).flatten)]
  by_cases hv : f.header.verify
  · simp only [hv, Bool.not_true, Bool.false_eq_true, if_false, hcnt]
    have := scanChunks_serialize rres_id f.chunks [] hwcs
    rwa [List.append_nil] at this
  · simp only [Bool.not_eq_true] at hv
    simp [hv]

/-
CRC lemmas: the transcribed table is the ISO-HDLC table, the table-driven
byte step equals eight reflected bit rounds, and the byte step is
injective in the running value, which makes the checksum sensitive to any
single-byte change.
-/

set_option maxRecDepth 4096 in
lemma crcTable_eq_round8 : ∀ i, i < 256 → crcTable.getD i 0 = crcRound8 i := by decide

set_option maxRecDepth 4096 in
lemma crcTable_lt_of_lt : ∀ i, i < 256 → crcTable.getD i 0 < 4294967296 := by decide

set_option maxRecDepth 4096 in
lemma crcTable_length : crcTable.length = 256 := by rfl

lemma crcTable_getD_lt (i : Nat) : crcTable.getD i 0 < 4294967296 := by
  by_cases h : i < 256
  · exact crcTable_lt_of_lt i h
  · have hle : crcTable.length ≤ i := by rw [crcTable_length]; omega
    simp [List.getD_eq_getElem?_getD, List.getElem?_eq_none hle]

lemma xor_lt_u32 {x y : Nat} (hx : x < 4294967296) (hy : y < 4294967296) :
    x ^^^ y < 4294967296 := by
  have h2 : (4294967296 : Nat) = 2 ^ 32 := by norm_num
  rw [h2] at hx hy ⊢
  exact Nat.xor_lt_two_pow hx hy

lemma xor_inj_right {a b p : Nat} (h : a ^^^ p = b ^^^ p) : a = b := by
  have h2 : (a ^^^ p) ^^^ p = (b ^^^ p) ^^^ p := by rw [h]
  rwa [Nat.xor_assoc, Nat.xor_self, Nat.xor_zero, Nat.xor_assoc, Nat.xor_self,
    Nat.xor_zero] at h2

lemma xor_left_comm (a b c : Nat) : a ^^^ (b ^^^ c) = b ^^^ (a ^^^ c) := by
  rw [← Nat.xor_assoc, Nat.xor_comm a b, Nat.xor_assoc]

lemma xor_cancel_left (a b : Nat) : a ^^^ (a ^^^ b) = b := by
  rw [← Nat.xor_assoc, Nat.xor_self, Nat.zero_xor]

lemma xor_mod_two (x y : Nat) : (x ^^^ y) % 2 = (x % 2) ^^^ (y % 2) := by
  have h := Nat.testBit_xor x y 0
  simp only [Nat.testBit_zero] at h
  rcases Nat.mod_two_eq_zero_or_one x with hx | hx <;>
    rcases Nat.mod_two_eq_zero_or_one y with hy | hy <;>
    simp [hx, hy] at h ⊢ <;> omega

lemma crcRound_xor (x y : Nat) : crcRound (x ^^^ y) = crcRound x ^^^ crcRound y := by
  unfold crcRound
  have hp := xor_mod_two x y
  rcases Nat.mod_two_eq_zero_or_one x with hx | hx <;>
    rcases Nat.mod_two_eq_zero_or_one y with hy | hy <;>
    rw [hx, hy] at hp <;>
    simp [hx, hy, hp, Nat.xor_div_two, Nat.xor_assoc, Nat.xor_comm, xor_left_comm,
      xor_cancel_left, Nat.xor_self, Nat.xor_zero, Nat.zero_xor]

lemma crcRound8_xor (x y : Nat) : crcRound8 (x ^^^ y) = crcRound8 x ^^^ crcRound8 y := by
  simp only [crcRound8, crcRound_xor]

lemma crcRound_two_mul (x : Nat) : crcRound (2 * x) = x := by
  unfold crcRound
  simp [Nat.mul_mod_right]

lemma crcRound8_mul256 (q : Nat) : crcRound8 (256 * q) = q := by
  have h : 256 * q = 2 * (2 * (2 * (2 * (2 * (2 * (2 * (2 * q))))))) := by ring
  rw [h]
  simp only [crcRound8, crcRound_two_mul]

lemma xor_mod256 (c : Nat) : c ^^^ c % 256 = 256 * (c / 256) := by
  apply Nat.eq_of_testBit_eq
  intro i
  have h256 : (256 : Nat) = 2 ^ 8 := by norm_num
  rw [Nat.testBit_xor, h256, Nat.testBit_mod_two_pow, Nat.testBit_mul_pow_two]
  by_cases hi : i < 8
  · simp [hi, Nat.not_le.mpr hi]
  · have hge : 8 ≤ i := Nat.not_lt.mp hi
    simp only [hi, decide_False, Bool.false_and, Bool.xor_false, ge_iff_le, hge,
      decide_True, Bool.true_and]
    rw [← Nat.shiftRight_eq_div_pow, Nat.testBit_shiftRight]
    congr 1
    omega

lemma crc32_step_eq (c b : Nat) (hb : b < 256) :
    crc32_step c b = crcRound8 (c ^^^ b) := by
  have hidx : (c % 256) ^^^ b < 256 := by
    have h256 : (256 : Nat) = 2 ^ 8 := by norm_num
    rw [h256]
    exact Nat.xor_lt_two_pow (by omega) (by omega)
  have hdec : (c ^^^ c % 256) ^^^ ((c % 256) ^^^ b) = c ^^^ b := by
    rw [Nat.xor_assoc, ← Nat.xor_assoc (c % 256) (c % 256) b, Nat.xor_self, Nat.zero_xor]
  rw [← hdec, crcRound8_xor, xor_mod256, crcRound8_mul256]
  unfold crc32_step
  rw [Nat.mod_eq_of_lt hb, Nat.xor_comm b (c % 256), crcTable_eq_round8 _ hidx]

lemma crcPoly_testBit31 : crcPoly.testBit 31 = true := by decide

lemma crcPoly_lt : crcPoly < 4294967296 := by norm_num [crcPoly]

lemma crcRoundInv_crcRound {c : Nat} (hc : c < 4294967296) :
    crcRoundInv (crcRound c) = c := by
  have h31 : c / 2 < 2 ^ 31 := by omega
  rcases Nat.mod_two_eq_zero_or_one c with hc2 | hc2
  · have hr : crcRound c = c / 2 := by simp [crcRound, hc2]
    rw [hr]
    have hbit : (c / 2).testBit 31 = false := Nat.testBit_lt_two_pow h31
    simp only [crcRoundInv, hbit, Bool.false_eq_true, if_false]
    omega
  · have hr : crcRound c = c / 2 ^^^ crcPoly := by simp [crcRound, hc2]
    rw [hr]
    have hbit : (c / 2 ^^^ crcPoly).testBit 31 = true := by
      rw [Nat.testBit_xor, Nat.testBit_lt_two_pow h31, crcPoly_testBit31]
      rfl
    simp only [crcRoundInv, hbit, if_true]
    rw [Nat.xor_assoc, Nat.xor_self, Nat.xor_zero]
    omega

lemma crcRound_lt {c : Nat} (hc : c < 4294967296) : crcRound c < 4294967296 := by
  unfold crcRound
  split
  · exact xor_lt_u32 (by omega) crcPoly_lt
  · omega

lemma crcRoundInv8_crcRound8 {c : Nat} (hc : c < 4294967296) :
    crcRoundInv8 (crcRound8 c) = c := by
  have h1 := crcRound_lt hc
  have h2 := crcRound_lt h1
  have h3 := crcRound_lt h2
  have h4 := crcRound_lt h3
  have h5 := crcRound_lt h4
  have h6 := crcRound_lt h5
  have h7 := crcRound_lt h6
  unfold crcRound8 crcRoundInv8
  rw [crcRoundInv_crcRound h7, crcRoundInv_crcRound h6, crcRoundInv_crcRound h5,
    crcRoundInv_crcRound h4, crcRoundInv_crcRound h3, crcRoundInv_crcRound h2,
    crcRoundInv_crcRound h1, crcRoundInv_crcRound hc]

lemma crcRound8_inj {a b : Nat} (ha : a < 4294967296) (hb : b < 4294967296)
    (h : crcRound8 a = crcRound8 b) : a = b := by
  have h2 := congrArg crcRoundInv8 h
  rwa [crcRoundInv8_crcRound8 ha, crcRoundInv8_crcRound8 hb] at h2

lemma crc32_step_lt {c : Nat} (b : Nat) (hc : c < 4294967296) :
    crc32_step c b < 4294967296 := by
  unfold crc32_step
  exact xor_lt_u32 (by omega) (crcTable_getD_lt _)

lemma foldl_crc_lt (l : List Nat) {c : Nat} (hc : c < 4294967296) :
    l.foldl crc32_step c < 4294967296 := by
  induction l generalizing c with
  | nil => exact hc
  | cons b t ih => exact ih (crc32_step_lt b hc)

lemma crc32_step_inj {c1 c2 b : Nat} (hb : b < 256) (h1 : c1 < 4294967296)
    (h2 : c2 < 4294967296) (h : crc32_step c1 b = crc32_step c2 b) : c1 = c2 := by
  rw [crc32_step_eq c1 b hb, crc32_step_eq c2 b hb] at h
  have hx1 : c1 ^^^ b < 4294967296 := xor_lt_u32 h1 (by omega)
  have hx2 : c2 ^^^ b < 4294967296 := xor_lt_u32 h2 (by omega)
  exact xor_inj_right (crcRound8_inj hx1 hx2 h)

lemma crc32_step_ne {c b1 b2 : Nat} (hc : c < 4294967296) (hb1 : b1 < 256)
    (hb2 : b2 < 256) (hne : b1 ≠ b2) : crc32_step c b1 ≠ crc32_step c b2 := by
  intro h
  rw [crc32_step_eq c b1 hb1, crc32_step_eq c b2 hb2] at h
  have hx1 : c ^^^ b1 < 4294967296 := xor_lt_u32 hc (by omega)
  have hx2 : c ^^^ b2 < 4294967296 := xor_lt_u32 hc (by omega)
  have h3 := crcRound8_inj hx1 hx2 h
  rw [Nat.xor_comm c b1, Nat.xor_comm c b2] at h3
  exact hne (xor_inj_right h3)

lemma foldl_crc_inj (l : List Nat) (hl : ∀ x ∈ l, x < 256) :
    ∀ c1 c2, c1 < 4294967296 → c2 < 4294967296 →
      l.foldl crc32_step c1 = l.foldl crc32_step c2 → c1 = c2 := by
  induction l with
  | nil => intro c1 c2 _ _ h; exact h
  | cons b t ih =>
    intro c1 c2 h1 h2 h
    simp only [List.foldl_cons] at h
    have hbb : b < 256 := hl b (by simp)
    have hrec := ih (fun x hx => hl x (by simp [hx])) (crc32_step c1 b) (crc32_step c2 b)
      (crc32_step_lt b h1) (crc32_step_lt b h2) h
    exact crc32_step_inj hbb h1 h2 hrec

lemma compute_crc32_flip_ne (pre suf : List Nat) {b1 b2 : Nat}
    (hsuf : ∀ x ∈ suf, x < 256) (hb1 : b1 < 256) (hb2 : b2 < 256) (hne : b1 ≠ b2) :
    compute_crc32 (pre ++ b1 :: suf) ≠ compute_crc32 (pre ++ b2 :: suf) := by
  intro h
  unfold compute_crc32 at h
  have h2 := xor_inj_right h
  rw [List.foldl_append, List.foldl_append] at h2
  simp only [List.foldl_cons] at h2
  have hclt : List.foldl crc32_step 4294967295 pre < 4294967296 :=
    foldl_crc_lt pre (by omega)
  have hstep := foldl_crc_inj suf hsuf _ _ (crc32_step_lt b1 hclt)
    (crc32_step_lt b2 hclt) h2
  exact crc32_step_ne hclt hb1 hb2 hne hstep

lemma crc32_step_mod (c b : Nat) : crc32_step c b = crc32_step c (b % 256) := by
  unfold crc32_step
  have hm : b % 256 % 256 = b % 256 := by omega
  rw [hm]

lemma compute_crc32_eq_bitSpec (data : List Nat) :
    compute_crc32 data = crc32_bitSpec data := by
  unfold compute_crc32 crc32_bitSpec
  have hf : crc32_step = fun c b => crcRound8 (c ^^^ b % 256) := by
    funext c b
    rw [crc32_step_mod c b, crc32_step_eq c (b % 256) (by omega)]
  rw [hf]

/-
Consumption lemmas (how many bytes each parser removes from the stream)
and the equivalence of the two directory-entry parsers.
-/

lemma readU8R_consume {s : List Nat} {b : Nat} {r : List Nat}
    (h : readU8R s = some (b, r)) : r = s.drop 1 := by
  cases s with
  | nil => simp [readU8R] at h
  | cons x xs =>
    simp [readU8R] at h
    simp [h.2.symm]

lemma readU16R_consume {s : List Nat} {v : Nat} {r : List Nat}
    (h : readU16R s = some (v, r)) : r = s.drop 2 := by
  unfold readU16R at h
  cases h0 : readU8R s with
  | none => simp [h0] at h
  | some p0 =>
    obtain ⟨a, s1⟩ := p0
    simp only [h0] at h
    cases h1 : readU8R s1 with
    | none => simp [h1] at h
    | some p1 =>
      obtain ⟨b, s2⟩ := p1
      simp only [h1] at h
      simp only [Option.some.injEq, Prod.mk.injEq] at h
      rw [← h.2, readU8R_consume h1, readU8R_consume h0, List.drop_drop]

lemma readU32R_consume {s : List Nat} {v : Nat} {r : List Nat}
    (h : readU32R s = some (v, r)) : r = s.drop 4 :=
  (readU32R_shape h).2.1

lemma parseHeaderR_consume {s : List Nat} {fh : FileHeader} {r : List Nat}
    (hp : parseHeaderR s = some (fh, r)) : r = s.drop 16 := by
  unfold parseHeaderR at hp
  cases h0 : readU8R s with
  | none => simp [h0] at hp
  | some p0 =>
  obtain ⟨i0, s1⟩ := p0
  simp only [h0] at hp
  cases h1 : readU8R s1 with
  | none => simp [h1] at hp
  | some p1 =>
  obtain ⟨i1, s2⟩ := p1
  simp only [h1] at hp
  cases h2 : readU8R s2 with
  | none => simp [h2] at hp
  | some p2 =>
  obtain ⟨i2, s3⟩ := p2
  simp only [h2] at hp
  cases h3 : readU8R s3 with
  | none => simp [h3] at hp
  | some p3 =>
  obtain ⟨i3, s4⟩ := p3
  simp only [h3] at hp
  cases h4 : readU16R s4 with
  | none => simp [h4] at hp
  | some p4 =>
  obtain ⟨ver, s5⟩ := p4
  simp only [h4] at hp
  cases h5 : readU16R s5 with
  | none => simp [h5] at hp
  | some p5 =>
  obtain ⟨cnt, s6⟩ := p5
  simp only [h5] at hp
  cases h6 : readU32R s6 with
  | none => simp [h6] at hp
  | some p6 =>
  obtain ⟨cdo, s7⟩ := p6
  simp only [h6] at hp
  cases h7 : readU32R s7 with
  | none => simp [h7] at hp
  | some p7 =>
  obtain ⟨res, s8⟩ := p7
  simp only [h7] at hp
  simp only [Option.some.injEq, Prod.mk.injEq] at hp
  rw [← hp.2, readU32R_consume h7, readU32R_consume h6, readU16R_consume h5,
    readU16R_consume h4, readU8R_consume h3, readU8R_consume h2, readU8R_consume h1,
    readU8R_consume h0]
  simp [List.drop_drop]

lemma parseChunkInfoR_consume {s : List Nat} {ci : ResourceChunkInfo} {r : List Nat}
    (hp : parseChunkInfoR s = some (ci, r)) : r = s.drop 32 := by
  unfold parseChunkInfoR at hp
  cases h0 : readU8R s with
  | none => simp [h0] at hp
  | some p0 =>
  obtain ⟨t0, s1⟩ := p0
  simp only [h0] at hp
  cases h1 : readU8R s1 with
  | none => simp [h1] at hp
  | some p1 =>
  obtain ⟨t1, s2⟩ := p1
  simp only [h1] at hp
  cases h2 : readU8R s2 with
  | none => simp [h2] at hp
  | some p2 =>
  obtain ⟨t2, s3⟩ := p2
  simp only [h2] at hp
  cases h3 : readU8R s3 with
  | none => simp [h3] at hp
  | some p3 =>
  obtain ⟨t3, s4⟩ := p3
  simp only [h3] at hp
  cases h4 : readU32R s4 with
  | none => simp [h4] at hp
  | some p4 =>
  obtain ⟨cid, s5⟩ := p4
  simp only [h4] at hp
  cases h5 : readU8R s5 with
  | none => simp [h5] at hp
  | some p5 =>
  obtain ⟨cp, s6⟩ := p5
  simp only [h5] at hp
  cases h6 : readU8R s6 with
  | none => simp [h6] at hp
  | some p6 =>
  obtain ⟨ciph, s7⟩ := p6
  simp only [h6] at hp
  cases h7 : readU16R s7 with
  | none => simp [h7] at hp
  | some p7 =>
  obtain ⟨fl, s8⟩ := p7
  simp only [h7] at hp
  cases h8 : readU32R s8 with
  | none => simp [h8] at hp
  | some p8 =>
  obtain ⟨ps, s9⟩ := p8
  simp only [h8] at hp
  cases h9 : readU32R s9 with
  | none => simp [h9] at hp
  | some p9 =>
  obtain ⟨bs, s10⟩ := p9
  simp only [h9] at hp
  cases h10 : readU32R s10 with
  | none => simp [h10] at hp
  | some p10 =>
  obtain ⟨no, s11⟩ := p10
  simp only [h10] at hp
  cases h11 : readU32R s11 with
  | none => simp [h11] at hp
  | some p11 =>
  obtain ⟨rv, s12⟩ := p11
  simp only [h11] at hp
  cases h12 : readU32R s12 with
  | none => simp [h12] at hp
  | some p12 =>
  obtain ⟨crc, s13⟩ := p12
  simp only [h12] at hp
  simp only [Option.some.injEq, Prod.mk.injEq] at hp
  rw [← hp.2, readU32R_consume h12, readU32R_consume h11, readU32R_consume h10,
    readU32R_consume h9, readU32R_consume h8, readU16R_consume h7, readU8R_consume h6,
    readU8R_consume h5, readU32R_consume h4, readU8R_consume h3, readU8R_consume h2,
    readU8R_consume h1, readU8R_consume h0]
  simp [List.drop_drop]

lemma readU32R_of_le {s : List Nat} (h : 4 ≤ s.length) :
    readU32R s = some (leVal (s.take 4), s.drop 4) := by
  rcases s with _ | ⟨a, _ | ⟨b, _ | ⟨c, _ | ⟨d, t⟩⟩⟩⟩
  · simp at h
  · simp at h
  · simp at h
  · simp at h
  · rw [readU32R_cons]
    have ht : (a :: b :: c :: d :: t).take 4 = [a, b, c, d] := rfl
    have hd : (a :: b :: c :: d :: t).drop 4 = t := rfl
    rw [ht, hd]
    simp only [Option.some.injEq, Prod.mk.injEq]
    refine ⟨?_, trivial⟩
    simp only [leVal, List.foldr_cons, List.foldr_nil]
    omega

lemma parseDirEntries_eq_spec : ∀ (n : Nat) (t : List Nat),
    parseDirEntries n t = dirEntriesSpec n t := by
  intro n
  induction n with
  | zero => intro t; rfl
  | succ n ih =>
    intro t
    by_cases h16 : 16 ≤ t.length
    · have h4 : 4 ≤ t.length := by omega
      have h8 : 4 ≤ (t.drop 4).length := by simp [List.length_drop]; omega
      have h12 : 4 ≤ (t.drop 12).length := by simp [List.length_drop]; omega
      simp only [parseDirEntries, dirEntriesSpec, readU32R_of_le h4, readU32R_of_le h8,
        List.drop_drop, readU32R_of_le h12]
      by_cases hn : 16 + leVal ((t.drop 12).take 4) ≤ t.length
      · have hre : readExactR (t.drop (12 + 4)) (leVal ((t.drop 12).take 4)) =
            some ((t.drop 16).take (leVal ((t.drop 12).take 4)),
              (t.drop 16).drop (leVal ((t.drop 12).take 4))) := by
          have h1216 : (12 : Nat) + 4 = 16 := by norm_num
          rw [h1216]
          unfold readExactR
          rw [if_pos (by simp [List.length_drop]; omega)]
        simp only [hre, ih, List.drop_drop, if_pos h16, if_pos hn]
      · have hre : readExactR (t.drop (12 + 4)) (leVal ((t.drop 12).take 4)) = none := by
          have h1216 : (12 : Nat) + 4 = 16 := by norm_num
          rw [h1216]
          unfold readExactR
          rw [if_neg (by simp [List.length_drop]; omega)]
        simp only [hre, if_pos h16, if_neg hn]
    · simp only [dirEntriesSpec, if_neg h16]
      by_cases h4 : 4 ≤ t.length
      · have hr1 := readU32R_of_le h4
        simp only [parseDirEntries, hr1]
        by_cases h8 : 4 ≤ (t.drop 4).length
        · have hr2 := readU32R_of_le h8
          simp only [hr2, List.drop_drop]
          have h12 : (t.drop (4 + 4 + 4)).length < 4 := by simp [List.length_drop]; omega
          have hr3 := readU32R_none h12
          simp only [hr3]
        · have hr2 : readU32R (t.drop 4) = none := readU32R_none (by omega)
          simp only [hr2]
      · have hr1 : readU32R t = none := readU32R_none (by omega)
        simp only [parseDirEntries, hr1]

lemma load_central_dir_eq_spec (s : List Nat) :
    load_central_dir s = load_directory_spec s := by
  unfold load_central_dir load_directory_spec
  cases hh : parseHeaderR s with
  | none => rfl
  | some p =>
    obtain ⟨header, s1⟩ := p
    have hs1 : s1 = s.drop 16 := parseHeaderR_consume hh
    by_cases hv : header.verify
    · simp only [hv, Bool.not_true, Bool.false_eq_true, if_false]
      subst hs1
      rw [List.drop_drop]
      cases hci : parseChunkInfoR (s.drop (16 + header.cd_offset)) with
      | none => rfl
      | some q =>
        obtain ⟨info, s2⟩ := q
        have hs2 : s2 = s.drop (16 + header.cd_offset + 32) := by
          rw [parseChunkInfoR_consume hci, List.drop_drop]
        subst hs2
        by_cases hdir : resourceDataTypeFrom info.chunk_type = ResourceDataType.Directory
        · have hb : info.is_chunk_type ResourceDataType.Directory = true := by
            simp [ResourceChunkInfo.is_chunk_type, hdir]
          have hb2 : (resourceDataTypeFrom info.chunk_type == ResourceDataType.Directory)
              = true := by simp [hdir]
          simp only [hb, hb2, Bool.not_true, Bool.false_eq_true, if_false]
          cases hre : readExactR (s.drop (16 + header.cd_offset + 32)) info.packed_size with
          | none => rfl
          | some pd =>
            obtain ⟨data, rest2⟩ := pd
            cases hdec : ResourceChunkData.from_info_and_data info data with
            | error e => simp only [hdec]
            | ok chunk_data =>
              cases hp : chunk_data.props with
              | nil => simp only [hdec, hp, List.head?_nil]
              | cons ec more =>
                simp only [hdec, hp, List.head?_cons, parseDirEntries_eq_spec]
        · have hb : info.is_chunk_type ResourceDataType.Directory = false := by
            simp [ResourceChunkInfo.is_chunk_type, hdir]
          have hb2 : (resourceDataTypeFrom info.chunk_type == ResourceDataType.Directory)
              = false := by simp [hdir]
          simp only [hb, hb2, Bool.not_false, if_true]
    · simp only [Bool.not_eq_true] at hv
      simp only [hv, Bool.not_false, if_true]

/-
Branch lemmas for the payload decoder, first-match lemmas for the linear
searches, and the checksum flip-sensitivity lemma in `List.set` form.
-/

lemma from_info_and_data_null (info : ResourceChunkInfo) (data : List Nat)
    (hnull : resourceDataTypeFrom info.chunk_type = ResourceDataType.Null) :
    ResourceChunkData.from_info_and_data info data =
      Except.error (DecodeErr.rres RresError.NullResource) := by
  unfold ResourceChunkData.from_info_and_data
  simp [hnull]

lemma from_info_and_data_crc_mismatch (info : ResourceChunkInfo) (data : List Nat)
    (hnull : resourceDataTypeFrom info.chunk_type ≠ ResourceDataType.Null)
    (hcrc : compute_crc32 data ≠ info.crc32) :
    ResourceChunkData.from_info_and_data info data =
      Except.error (DecodeErr.rres RresError.Crc32VerificationFailed) := by
  unfold ResourceChunkData.from_info_and_data
  simp [hnull, hcrc]

lemma from_info_and_data_transformed (info : ResourceChunkInfo) (data : List Nat)
    (hnull : resourceDataTypeFrom info.chunk_type ≠ ResourceDataType.Null)
    (hcrc : compute_crc32 data = info.crc32)
    (htr : info.is_compressed_or_encrypted = true)
    (hlen : data.length = info.packed_size) :
    ResourceChunkData.from_info_and_data info data =
      Except.ok { prop_count := 0, props := [], raw_data := data } := by
  unfold ResourceChunkData.from_info_and_data
  rw [← hlen]
  unfold readExactR
  simp [hnull, hcrc, htr]

lemma find?_first_match {α : Type} (p : α → Bool) (pre suf : List α) (c : α)
    (hpre : ∀ x ∈ pre, p x = false) (hc : p c = true) :
    (pre ++ c :: suf).find? p = some c := by
  induction pre with
  | nil => simp [List.find?_cons, hc]
  | cons a t ih =>
    have ha := hpre a (by simp)
    simp only [List.cons_append, List.find?_cons, ha]
    exact ih (fun x hx => hpre x (by simp [hx]))

lemma readPropsR_consume : ∀ (n : Nat) {s props r : List Nat},
    readPropsR n s = some (props, r) → 4 * n ≤ s.length ∧ r.length + 4 * n = s.length := by
  intro n
  induction n with
  | zero =>
    intro s props r h
    simp only [readPropsR, Option.some.injEq, Prod.mk.injEq] at h
    obtain ⟨-, hr⟩ := h
    subst hr
    simp
  | succ n ih =>
    intro s props r h
    unfold readPropsR at h
    cases h0 : readU32R s with
    | none => simp [h0] at h
    | some p =>
      obtain ⟨v, s1⟩ := p
      simp only [h0] at h
      cases h1 : readPropsR n s1 with
      | none => simp [h1] at h
      | some q =>
        obtain ⟨vs, s2⟩ := q
        simp only [h1, Option.some.injEq, Prod.mk.injEq] at h
        obtain ⟨-, hr⟩ := h
        obtain ⟨hlen4, hdrop, -⟩ := readU32R_shape h0
        obtain ⟨hle, hlen⟩ := ih h1
        subst hr
        subst hdrop
        simp only [List.length_drop] at hle hlen
        omega

lemma getResourceIdGo_absent (filename : List Nat) : ∀ (l : List DirEntry),
    (∀ e ∈ l, e.entryName ≠ filename) → getResourceIdGo filename l = 0 := by
  intro l
  induction l with
  | nil => intro _; rfl
  | cons e t ih =>
    intro h
    unfold getResourceIdGo
    rw [if_neg (h e (by simp))]
    exact ih (fun x hx => h x (by simp [hx]))

lemma getResourceIdGo_find (filename : List Nat) : ∀ (l : List DirEntry) (e : DirEntry),
    l.find? (fun x => x.entryName == filename) = some e →
    getResourceIdGo filename l = e.resource_id := by
  intro l
  induction l with
  | nil => intro e h; simp [List.find?] at h
  | cons a t ih =>
    intro e h
    by_cases ha : a.entryName = filename
    · have hb : (a.entryName == filename) = true := by simp [ha]
      rw [List.find?_cons, hb] at h
      simp only [Option.some.injEq] at h
      unfold getResourceIdGo
      rw [if_pos ha, h]
    · have hb : (a.entryName == filename) = false := by simp [ha]
      rw [List.find?_cons, hb] at h
      unfold getResourceIdGo
      rw [if_neg ha]
      exact ih e h

lemma compute_crc32_set_ne (l : List Nat) (p b2 : Nat) (hp : p < l.length)
    (hbytes : ∀ x ∈ l, x < 256) (hb2 : b2 < 256) (hne : b2 ≠ l.getD p 0) :
    compute_crc32 (l.set p b2) ≠ compute_crc32 l := by
  have hget : l.getD p 0 = l.get ⟨p, hp⟩ := by
    rw [List.getD_eq_getElem?_getD, List.getElem?_eq_getElem hp]
    rfl
  have hl : l = l.take p ++ l.get ⟨p, hp⟩ :: l.drop (p + 1) := by
    conv_lhs => rw [← List.take_append_drop p l]
    rw [List.drop_eq_getElem_cons hp]
    rfl
  have hset : l.set p b2 = l.take p ++ b2 :: l.drop (p + 1) := by
    rw [List.set_eq_take_append_cons_drop, if_pos hp]
  rw [hset]
  conv_rhs => rw [hl]
  have hsuf : ∀ x ∈ l.drop (p + 1), x < 256 :=
    fun x hx => hbytes x (List.mem_of_mem_drop hx)
  have hbp : l.get ⟨p, hp⟩ < 256 := hbytes _ (List.get_mem l p hp)
  have hne2 : b2 ≠ l.get ⟨p, hp⟩ := by rw [← hget]; exact hne
  exact compute_crc32_flip_ne (l.take p) (l.drop (p + 1)) hsuf hb2 hbp hne2

/-
Claim theorems.
-/

/-- C1, counterexample: on the concrete uncompressed chunk `c1Info`
(base_size 0, zero properties, matching checksum) the decoder does not
fail with any MalformedChunk error — no such error exists in the code —
and the u32 subtraction deriving the raw-tail length wraps: it yields
2^32 - 4 instead of the (negative) exact difference, after which the
decoder fails with an end-of-stream I/O error from `read_exact`. -/
theorem c1_counterexample :
    c1Info.base_size < 4 + 4 * 0 ∧
    wsub32 (wsub32 c1Info.base_size 4) (wmul32 0 4) = 4294967292 ∧
    ResourceChunkData.from_info_and_data c1Info [0, 0, 0, 0] =
      Except.error DecodeErr.eof := by
  refine ⟨by decide, by decide, by rfl⟩

/-- C1, amended: for every chunk with compression and cipher codes 'none'
whose base_size is smaller than 4 + 4 * property_count, the subtraction
deriving the raw-tail length is unguarded and wraps modulo 2^32 (release
semantics), and the decoder then fails with an end-of-stream I/O error
while trying to read the oversized raw tail — not with a MalformedChunk
error, which does not exist in the code. -/
theorem c1_underflow_wraps_to_eof (info : ResourceChunkInfo) (data r1 r2 : List Nat)
    (prop_count : Nat) (props : List Nat)
    (hnull : resourceDataTypeFrom info.chunk_type ≠ ResourceDataType.Null)
    (hcrc : compute_crc32 data = info.crc32)
    (htr : info.is_compressed_or_encrypted = false)
    (hpc : readU32R data = some (prop_count, r1))
    (hpr : readPropsR prop_count r1 = some (props, r2))
    (hlt : info.base_size < 4 + 4 * prop_count)
    (hbs : info.base_size < 4294967296)
    (hmul : 4 * prop_count < 4294967296)
    (hdata : data.length < 4294967296) :
    wsub32 (wsub32 info.base_size 4) (wmul32 prop_count 4) =
      info.base_size + 4294967296 - (4 + 4 * prop_count) ∧
    ResourceChunkData.from_info_and_data info data = Except.error DecodeErr.eof := by
  have hws : wsub32 (wsub32 info.base_size 4) (wmul32 prop_count 4) =
      info.base_size + 4294967296 - (4 + 4 * prop_count) := by
    unfold wsub32 wmul32
    omega
  refine ⟨hws, ?_⟩
  obtain ⟨h4, hdrop, -⟩ := readU32R_shape hpc
  obtain ⟨hle, hlenr2⟩ := readPropsR_consume prop_count hpr
  have hr1len : r1.length = data.length - 4 := by rw [hdrop]; simp [List.length_drop]
  have hre : readExactR r2 (wsub32 (wsub32 info.base_size 4) (wmul32 prop_count 4)) =
      none := by
    rw [hws]
    unfold readExactR
    rw [if_neg]
    omega
  unfold ResourceChunkData.from_info_and_data
  simp [hnull, hcrc, htr, hpc, hpr, hre]

/-- C1, amended, witness at the concrete chunk `c1Info`. -/
theorem c1_underflow_wraps_to_eof_witness :
    wsub32 (wsub32 c1Info.base_size 4) (wmul32 0 4) =
      c1Info.base_size + 4294967296 - (4 + 4 * 0) ∧
    ResourceChunkData.from_info_and_data c1Info [0, 0, 0, 0] =
      Except.error DecodeErr.eof :=
  c1_underflow_wraps_to_eof c1Info [0, 0, 0, 0] [] [] 0 []
    (by decide) (by decide) (by decide) (by decide) (by decide)
    (by decide) (by decide) (by decide) (by decide)

/-- C2, counterexample: `resolve` on the absent name "b" returns 0, the
very value stored as the legitimate resource id of the present entry "a"
— the absent signal is not distinct from every valid id. -/
theorem c2_counterexample :
    c2Dir.get_resource_id [98] = 0 ∧ c2Dir.get_resource_id [97] = 0 := by
  refine ⟨by decide, by decide⟩

/-- C2, amended: when no entry's logical name equals the supplied name,
`get_resource_id` returns the sentinel 0, a plain u32 that coincides with
a legitimate resource id of 0 rather than an explicit absent signal. -/
theorem c2_resolve_absent_returns_sentinel_zero (dir : CentralDir) (filename : List Nat)
    (habs : ∀ e ∈ dir.entries, e.entryName ≠ filename) :
    dir.get_resource_id filename = 0 :=
  getResourceIdGo_absent filename dir.entries habs

/-- C2, amended, witness: the name "c" is absent from `c2Dir` and resolve
returns 0. -/
theorem c2_resolve_absent_returns_sentinel_zero_witness :
    c2Dir.get_resource_id [99] = 0 :=
  c2_resolve_absent_returns_sentinel_zero c2Dir [99] (by decide)

/-- C3: the checksum engine is the reflected 32-bit ISO-HDLC CRC — the
transcribed 256-entry table equals the table generated from the reflected
polynomial 0xEDB88320 by eight shift-xor rounds, the byte step is
`crc = (crc >> 8) ^ table[byte ^ (crc & 0xFF)]`, the whole computation
(all-ones initial value, one byte step per input byte, final complement)
equals the bit-by-bit reference `crc32_bitSpec`, it is deterministic, and
the checksum of the empty byte sequence is the fixed constant 0. -/
theorem c3_crc32_engine :
    (∀ i, i < 256 → crcTable.getD i 0 = crcRound8 i) ∧
    (∀ c b, crc32_step c b = (c >>> 8) ^^^ crcTable.getD ((b % 256) ^^^ (c &&& 255)) 0) ∧
    (∀ data, compute_crc32 data = crc32_bitSpec data) ∧
    (∀ d1 d2 : List Nat, d1 = d2 → compute_crc32 d1 = compute_crc32 d2) ∧
    compute_crc32 [] = 0 := by
  refine ⟨crcTable_eq_round8, ?_, compute_crc32_eq_bitSpec, ?_, by decide⟩
  · intro c b
    have h1 : c >>> 8 = c / 256 := by
      rw [Nat.shiftRight_eq_div_pow]
    have h2 : c &&& 255 = c % 256 := by
      have h := Nat.and_pow_two_sub_one_eq_mod c 8
      norm_num at h
      exact h
    unfold crc32_step
    rw [h1, h2]
  · intro d1 d2 h
    rw [h]

/-- C3, witness at table index 1 and the byte lists `[1, 2, 3]` and `[]`. -/
theorem c3_crc32_engine_witness :
    crcTable.getD 1 0 = crcRound8 1 ∧
    compute_crc32 [1, 2, 3] = compute_crc32 [1, 2, 3] ∧
    compute_crc32 [] = 0 :=
  ⟨c3_crc32_engine.1 1 (by decide),
   c3_crc32_engine.2.2.2.1 [1, 2, 3] [1, 2, 3] rfl,
   c3_crc32_engine.2.2.2.2⟩

/-- C4: when a chunk's classification is not no-data and the checksum
computed over the packed payload differs from the stored checksum, the
decoder fails with `Crc32VerificationFailed` (before any property or
raw-tail parsing — the returned value is the bare error); consequently,
flipping any single byte of a well-formed chunk's packed payload makes
loading that chunk's id from the serialized container fail with
`Crc32VerificationFailed`. -/
theorem c4_checksum_guard :
    (∀ (info : ResourceChunkInfo) (data : List Nat),
      resourceDataTypeFrom info.chunk_type ≠ ResourceDataType.Null →
      compute_crc32 data ≠ info.crc32 →
      ResourceChunkData.from_info_and_data info data =
        Except.error (DecodeErr.rres RresError.Crc32VerificationFailed)) ∧
    (∀ (f : FileModel) (pre suf : List ChunkModel) (c : ChunkModel) (p b2 : Nat),
      wfFile f → f.chunks = pre ++ c :: suf → f.header.verify = true →
      (∀ x ∈ pre, x.info.chunk_id ≠ c.info.chunk_id) →
      resourceDataTypeFrom c.info.chunk_type ≠ ResourceDataType.Null →
      c.info.crc32 = compute_crc32 c.payload →
      p < c.payload.length → b2 < 256 → b2 ≠ c.payload.getD p 0 →
      load_resource_chunk
        (serializeFile
          { header := f.header,
            chunks := pre ++ { info := c.info, payload := c.payload.set p b2 } :: suf })
        c.info.chunk_id =
        Except.error (DecodeErr.rres RresError.Crc32VerificationFailed)) := by
  refine ⟨from_info_and_data_crc_mismatch, ?_⟩
  intro f pre suf c p b2 hwf hchunks hv hpre hnull hcrc hp hb2 hneq
  obtain ⟨hwh, hcnt, hwcs⟩ := hwf
  have hwc : wfChunk c := hwcs c (by rw [hchunks]; simp)
  obtain ⟨hwi, hbytes, hlen⟩ := hwc
  have hwf2 : wfFile
      { header := f.header,
        chunks := pre ++ { info := c.info, payload := c.payload.set p b2 } :: suf } := by
    refine ⟨hwh, ?_, ?_⟩
    · rw [hcnt, hchunks]
      simp
    · intro x hx
      simp only [List.mem_append, List.mem_cons] at hx
      rcases hx with hx | hx | hx
      · exact hwcs x (by rw [hchunks]; simp [hx])
      · subst hx
        refine ⟨hwi, ?_, ?_⟩
        · intro b hb
          rcases List.mem_or_eq_of_mem_set hb with hb | hb
          · exact hbytes b hb
          · subst hb
            exact hb2
        · simp [List.length_set, hlen]
      · exact hwcs x (by rw [hchunks]; simp [hx])
  rw [load_resource_chunk_eq_spec _ hwf2]
  unfold fetch_by_id_spec
  simp only [hv, Bool.not_true, Bool.false_eq_true, if_false]
  unfold findChunkSpec
  have hfind : (pre ++ { info := c.info, payload := c.payload.set p b2 } :: suf).find?
      (fun x => x.info.chunk_id == c.info.chunk_id) =
      some { info := c.info, payload := c.payload.set p b2 } := by
    apply find?_first_match
    · intro x hx
      simp [hpre x hx]
    · simp
  have hcrcne : compute_crc32 (c.payload.set p b2) ≠ c.info.crc32 := by
    rw [hcrc]
    exact compute_crc32_set_ne c.payload p b2 hp hbytes hb2 hneq
  simp only [hfind]
  simp only [from_info_and_data_crc_mismatch _ _ hnull hcrcne]

/-- C4, witness: flipping the single payload byte of the one-chunk
container `cwFile` from 42 to 43 makes loading id 7 fail with
`Crc32VerificationFailed`. -/
theorem c4_checksum_guard_witness :
    load_resource_chunk
      (serializeFile
        { header := cwFile.header,
          chunks := [] ++ { info := cwChunk.info, payload := cwChunk.payload.set 0 43 } :: [] })
      cwChunk.info.chunk_id =
      Except.error (DecodeErr.rres RresError.Crc32VerificationFailed) :=
  c4_checksum_guard.2 cwFile [] [] cwChunk 0 43 (by decide) rfl (by decide)
    (by decide) (by decide) (by decide) (by decide) (by decide) (by decide)

/-- C5: for every chunk whose compression or cipher code differs from
'none' and whose payload has exactly `packed_size` bytes (as the callers
always arrange), the decoder parses no properties and returns the entire
packed payload byte-for-byte unchanged as the raw tail. -/
theorem c5_transformed_opaque_passthrough (info : ResourceChunkInfo) (data : List Nat)
    (hnull : resourceDataTypeFrom info.chunk_type ≠ ResourceDataType.Null)
    (hcrc : compute_crc32 data = info.crc32)
    (htr : info.is_compressed_or_encrypted = true)
    (hlen : data.length = info.packed_size) :
    ResourceChunkData.from_info_and_data info data =
      Except.ok { prop_count := 0, props := [], raw_data := data } :=
  from_info_and_data_transformed info data hnull hcrc htr hlen

/-- C5, witness at the concrete RLE-compressed chunk `c5Info` with payload
9, 8. -/
theorem c5_transformed_opaque_passthrough_witness :
    ResourceChunkData.from_info_and_data c5Info [9, 8] =
      Except.ok { prop_count := 0, props := [], raw_data := [9, 8] } :=
  c5_transformed_opaque_passthrough c5Info [9, 8] (by decide) (by decide) (by decide)
    (by decide)

/-- C6: on every serialized well-formed container, `load_resource_chunk`
behaves exactly as the specification — verify the header (failing with
`HeaderVerificationFailed` when verification fails), walk the file's
chunk_count records in order and decode the first one whose id matches —
and in particular, when the header verifies and no record's id matches,
the scan of all records ends with `ChunkNotFound`. -/
theorem c6_fetch_by_id_refines (f : FileModel) (rres_id : Nat) (hwf : wfFile f) :
    load_resource_chunk (serializeFile f) rres_id = fetch_by_id_spec f rres_id ∧
    (f.header.verify = true → (∀ c ∈ f.chunks, c.info.chunk_id ≠ rres_id) →
      load_resource_chunk (serializeFile f) rres_id =
        Except.error (DecodeErr.rres RresError.ChunkNotFound)) := by
  have heq := load_resource_chunk_eq_spec f hwf rres_id
  refine ⟨heq, ?_⟩
  intro hv habs
  rw [heq]
  unfold fetch_by_id_spec
  simp only [hv, Bool.not_true, Bool.false_eq_true, if_false]
  unfold findChunkSpec
  have hnone : f.chunks.find? (fun c => c.info.chunk_id == rres_id) = none := by
    rw [List.find?_eq_none]
    intro x hx
    simp [habs x hx]
  rw [hnone]

/-- C6, witness on the one-chunk container `cwFile`: fetching the present
id 7 agrees with the specification, and fetching the absent id 6 examines
the only record and fails with `ChunkNotFound`. -/
theorem c6_fetch_by_id_refines_witness :
    load_resource_chunk (serializeFile cwFile) 7 = fetch_by_id_spec cwFile 7 ∧
    load_resource_chunk (serializeFile cwFile) 6 =
      Except.error (DecodeErr.rres RresError.ChunkNotFound) :=
  ⟨(c6_fetch_by_id_refines cwFile 7 (by decide)).1,
   (c6_fetch_by_id_refines cwFile 6 (by decide)).2 (by decide) (by decide)⟩

/-- C7: `load_central_dir` behaves exactly as the specification written
from the spec text — it verifies the header, reads one descriptor at the
central-directory offset measured from the byte just after the 16-byte
header, fails with `InvalidCentralDir` when that descriptor is not
Directory-classified, and otherwise decodes the payload, takes the first
decoded property as the entry count and parses the raw tail strictly in
order as that many resource_id / global_offset / 4 skipped bytes /
name_length / name-bytes entries. -/
theorem c7_load_directory_refines (s : List Nat) :
    load_central_dir s = load_directory_spec s :=
  load_central_dir_eq_spec s

/-- C8: a chunk whose tag classifies as no-data is rejected with
`NullResource` regardless of the payload bytes, and every 4-byte tag
outside the closed set of recognized codes normalizes to the no-data
classification. -/
theorem c8_null_resource :
    (∀ (info : ResourceChunkInfo) (data : List Nat),
      resourceDataTypeFrom info.chunk_type = ResourceDataType.Null →
      ResourceChunkData.from_info_and_data info data =
        Except.error (DecodeErr.rres RresError.NullResource)) ∧
    (∀ t : List Nat, t ∉ recognizedTags → resourceDataTypeFrom t = ResourceDataType.Null) := by
  refine ⟨from_info_and_data_null, ?_⟩
  intro t ht
  simp only [recognizedTags, List.mem_cons, List.not_mem_nil, or_false, not_or] at ht
  obtain ⟨h1, h2, h3, h4, h5, h6, h7, h8, h9⟩ := ht
  unfold resourceDataTypeFrom
  simp [h1, h2, h3, h4, h5, h6, h7, h8, h9]

/-- C8, witness: the unrecognized tag 1,2,3,4 classifies as no-data and
the decoder rejects the chunk `c8Info` with `NullResource` even though its
payload byte 5 is nonempty. -/
theorem c8_null_resource_witness :
    resourceDataTypeFrom [1, 2, 3, 4] = ResourceDataType.Null ∧
    ResourceChunkData.from_info_and_data c8Info [5] =
      Except.error (DecodeErr.rres RresError.NullResource) :=
  ⟨c8_null_resource.2 [1, 2, 3, 4] (by decide),
   c8_null_resource.1 c8Info [5] (by decide)⟩

/-- C9: when the first entry whose logical name (raw bytes up to the first
NUL) equals the supplied name exists, `get_resource_id` returns exactly
that entry's stored resource id. -/
theorem c9_resolve_exact_first_match (dir : CentralDir) (filename : List Nat) (e : DirEntry)
    (hfind : dir.entries.find? (fun x => x.entryName == filename) = some e) :
    dir.get_resource_id filename = e.resource_id :=
  getResourceIdGo_find filename dir.entries e hfind

/-- C9, witness on `c9Dir`, whose entries share the path prefix "a": the
name "a" resolves to id 9 (the entry whose raw bytes are "a", NUL, "x")
and the name "ab" resolves to id 7. -/
theorem c9_resolve_exact_first_match_witness :
    c9Dir.get_resource_id [97] = 9 ∧ c9Dir.get_resource_id [97, 98] = 7 :=
  ⟨c9_resolve_exact_first_match c9Dir [97]
      { resource_id := 9, global_offset := 0, reserved := 0, file_name_size := 3,
        file_name := [97, 0, 120] } (by decide),
   c9_resolve_exact_first_match c9Dir [97, 98]
      { resource_id := 7, global_offset := 0, reserved := 0, file_name_size := 2,
        file_name := [97, 98] } (by decide)⟩

/-- C10: when the chunk at the central-directory offset is
Directory-classified but compressed or encrypted, its decoded property
list is empty, and `load_central_dir` indexes `props[0]` out of bounds: it
aborts (a Rust panic), so it neither returns a directory — empty or
otherwise — nor any defined error value. -/
theorem c10_transformed_directory_aborts (s : List Nat) (header : FileHeader)
    (s1 : List Nat) (info : ResourceChunkInfo) (s2 data rest : List Nat)
    (hh : parseHeaderR s = some (header, s1))
    (hv : header.verify = true)
    (hci : parseChunkInfoR (s1.drop header.cd_offset) = some (info, s2))
    (hdir : resourceDataTypeFrom info.chunk_type = ResourceDataType.Directory)
    (htr : info.is_compressed_or_encrypted = true)
    (hre : readExactR s2 info.packed_size = some (data, rest))
    (hcrc : compute_crc32 data = info.crc32) :
    load_central_dir s = Except.error DecodeErr.abort ∧
    ∀ d : CentralDir, load_central_dir s ≠ Except.ok d := by
  have hnull : resourceDataTypeFrom info.chunk_type ≠ ResourceDataType.Null := by
    rw [hdir]
    intro hx
    cases hx
  have hlen : data.length = info.packed_size := by
    obtain ⟨hle, hd, -⟩ := readExactR_shape hre
    rw [hd]
    simp [List.length_take]
    omega
  have hdec := from_info_and_data_transformed info data hnull hcrc htr hlen
  have hchunk : info.is_chunk_type ResourceDataType.Directory = true := by
    simp [ResourceChunkInfo.is_chunk_type, hdir]
  have hmain : load_central_dir s = Except.error DecodeErr.abort := by
    unfold load_central_dir
    simp only [hh, hv, Bool.not_true, Bool.false_eq_true, if_false, hci, hchunk, hre, hdec]
  refine ⟨hmain, ?_⟩
  intro d hd
  rw [hmain] at hd
  simp at hd

/-- C10, witness: on the concrete 48-byte container `c10File`, whose
central directory chunk is Directory-classified but marked compressed,
`load_central_dir` aborts. -/
theorem c10_transformed_directory_aborts_witness :
    load_central_dir c10File = Except.error DecodeErr.abort :=
  (c10_transformed_directory_aborts c10File c10Header (serializeInfo c10Info) c10Info [] [] []
    (by decide) (by decide) (by decide) (by decide) (by decide) (by decide) (by decide)).1

end Rres
